import Mathlib

/-!
Shallow embedding of the multi-instance WhatsApp connection supervisor of
luna-whatsapp-service (src/services/baileys.ts) and proofs about its
reconnection policy, webhook retry loop, zombie detection sweep, instance
lifecycle and message handling.

Modelling conventions:
- JavaScript Map objects become association lists keyed by instance name.
- Timestamps (Date.now, new Date) are natural numbers in milliseconds,
  passed in as explicit parameters.
- The opaque Baileys socket is a numeric handle; makeWASocket is modelled
  by allocating a fresh handle from a counter.
- Timers (setInterval handles) are numeric ids allocated from a counter;
  a map entry stands for a live timer.
- External effects (HTTP fetch, media download, LID resolution) are
  modelled as oracle functions passed to the operation; a thrown or
  failed external call is the oracle returning none.
- Event handlers registered on a socket are modelled as functions acting
  on the registered instance of the given name; events for names that are
  not registered are dropped.
- Filesystem effects (session directories) and log output are outside the
  model; webhook emission of the connection handlers is modelled only
  where a claim needs it (the retry loop sendWebhook, and the payload
  list of the messages.upsert handler).
-/

namespace Luna

/-- Association list lookup, mirroring JavaScript Map.get (first match). -/
def mapGet {α : Type} (m : List (String × α)) (k : String) : Option α :=
  match m with
  | [] => none
  | (k2, v) :: rest => if k2 = k then some v else mapGet rest k

/-- Association list update, mirroring JavaScript Map.set: replace the
first binding of the key, or append a new binding. -/
def mapSet {α : Type} (m : List (String × α)) (k : String) (v : α) :
    List (String × α) :=
  match m with
  | [] => [(k, v)]
  | (k2, v2) :: rest =>
    if k2 = k then (k, v) :: rest else (k2, v2) :: mapSet rest k v

/-- Association list removal, mirroring JavaScript Map.delete. -/
def mapDelete {α : Type} (m : List (String × α)) (k : String) :
    List (String × α) :=
  m.filter (fun p => p.1 != k)

/-- JavaScript truthiness coercion for an optional string used with the
or-else operator: null, undefined and the empty string collapse to none. -/
def jsTruthy (s : Option String) : Option String :=
  match s with
  | some v => if v = "" then none else some v
  | none => none

/-- JavaScript String.prototype.includes for a nonempty pattern. -/
def strIncludes (s pat : String) : Bool :=
  decide (1 < (s.splitOn pat).length)

/-- Connection lifecycle states of one instance (types/index.ts,
InstanceStatus). -/
inductive InstanceStatus where
  | disconnected
  | connecting
  | qr_code
  | connected
deriving DecidableEq, Repr

/-- Per-instance record (types/index.ts, Instance). The socket field holds
the numeric handle of the live Baileys socket, if any. -/
structure Instance where
  socket : Option Nat
  qrCode : Option String
  status : InstanceStatus
  phoneNumber : Option String := none
  profileName : Option String := none
  profilePicUrl : Option String := none
  createdAt : Nat
  lastConnected : Option Nat := none
deriving DecidableEq, Repr

/-- Public view of an instance (types/index.ts, InstanceInfo). -/
structure InstanceInfo where
  name : String
  status : InstanceStatus
  phoneNumber : Option String
  profileName : Option String
  profilePicUrl : Option String
  qrCode : Option String
  createdAt : Nat
  lastConnected : Option Nat
deriving DecidableEq, Repr

/-- The mutable fields of the BaileysService singleton
(services/baileys.ts, class BaileysService). -/
structure ServiceState where
  instances : List (String × Instance)
  webhookUrl : Option String
  reconnectAttempts : List (String × Nat)
  keepAliveIntervals : List (String × Nat)
  lastActivity : List (String × Nat)
  lastMessageReceived : List (String × Nat)
  nextSocketId : Nat
  nextTimerId : Nat
deriving DecidableEq, Repr

/-- Freshly constructed service (constructor of BaileysService); the
webhook URL comes from the environment. -/
def initState (url : Option String) : ServiceState :=
  { instances := []
    webhookUrl := url
    reconnectAttempts := []
    keepAliveIntervals := []
    lastActivity := []
    lastMessageReceived := []
    nextSocketId := 0
    nextTimerId := 0 }

/-- Baileys DisconnectReason.loggedOut status code. -/
def DisconnectReason.loggedOut : Nat := 401

/-- connect(name): look the instance up (throwing if absent), set status
to connecting, build a fresh socket and store its handle
(services/baileys.ts, connect, lines 155 to 187). Handler registration is
implicit: the handle functions below act on the registered instance. -/
def connectService (st : ServiceState) (name : String) :
    Except String ServiceState :=
  match mapGet st.instances name with
  | none => Except.error "Instance not found"
  | some inst =>
    let inst2 := { inst with status := InstanceStatus.connecting,
                             socket := some st.nextSocketId }
    Except.ok { st with
      instances := mapSet st.instances name inst2
      nextSocketId := st.nextSocketId + 1 }

/-- connect wrapped in try/catch that swallows the error, as the callers
in the zombie checker and the reconnect timer do. -/
def connectTry (st : ServiceState) (name : String) : ServiceState :=
  match connectService st name with
  | Except.ok st2 => st2
  | Except.error _ => st

/-- createInstance(name): return the existing record unchanged when the
name is registered; otherwise insert a fresh disconnected record and
immediately connect it (services/baileys.ts, createInstance, lines 138 to
153). Returns the resulting state and the returned instance record. -/
def createInstance (st : ServiceState) (name : String) (now : Nat) :
    ServiceState × Instance :=
  match mapGet st.instances name with
  | some inst => (st, inst)
  | none =>
    let fresh : Instance :=
      { socket := none, qrCode := none,
        status := InstanceStatus.disconnected, createdAt := now }
    let st1 := { st with instances := mapSet st.instances name fresh }
    let st2 := connectTry st1 name
    (st2, (mapGet st2.instances name).getD fresh)

/-- qr branch of the connection.update handler: store the rendered QR
payload and move to qr_code (services/baileys.ts, lines 192 to 202). -/
def handleQr (st : ServiceState) (name : String) (rendered : String) :
    ServiceState :=
  match mapGet st.instances name with
  | none => st
  | some inst =>
    let inst2 := { inst with qrCode := some rendered,
                             status := InstanceStatus.qr_code }
    { st with instances := mapSet st.instances name inst2 }

/-- close branch of the connection.update handler (services/baileys.ts,
lines 204 to 235). A loggedOut reason clears identity and pairing fields
and does not reconnect; any other reason (including an absent status
code) moves to connecting, schedules one reconnection after
min(3000 * 2 ^ attempts, 60000) ms and increments the attempt counter.
Returns the new state and the list of (name, delay) reconnections
scheduled by this event. -/
def handleClose (st : ServiceState) (name : String) (reason : Option Nat) :
    ServiceState × List (String × Nat) :=
  match mapGet st.instances name with
  | none => (st, [])
  | some inst =>
    if reason = some DisconnectReason.loggedOut then
      let inst2 := { inst with status := InstanceStatus.disconnected,
                               qrCode := none,
                               phoneNumber := none,
                               profileName := none }
      ({ st with instances := mapSet st.instances name inst2 }, [])
    else
      let inst2 := { inst with status := InstanceStatus.connecting }
      let attempts := (mapGet st.reconnectAttempts name).getD 0
      let delay := min (3000 * 2 ^ attempts) 60000
      ({ st with
          instances := mapSet st.instances name inst2
          reconnectAttempts := mapSet st.reconnectAttempts name (attempts + 1) },
       [(name, delay)])

/-- open branch of the connection.update handler (services/baileys.ts,
lines 237 to 284): move to connected, clear the QR payload, stamp
lastConnected, reset the reconnect counter to 0, replace the keep-alive
timer with a fresh one, capture identity fields from the socket user and
stamp lastActivity. -/
def handleOpen (st : ServiceState) (name : String) (now : Nat)
    (userId : Option String) (userName : Option String) : ServiceState :=
  match mapGet st.instances name with
  | none => st
  | some inst =>
    let phone : Option String :=
      match jsTruthy userId with
      | some uid =>
        some ((((uid.splitOn ":").headD "").splitOn "@").headD "")
      | none => inst.phoneNumber
    let inst2 := { inst with status := InstanceStatus.connected,
                             qrCode := none,
                             lastConnected := some now,
                             phoneNumber := phone,
                             profileName := userName }
    { st with
        instances := mapSet st.instances name inst2
        reconnectAttempts := mapSet st.reconnectAttempts name 0
        keepAliveIntervals := mapSet st.keepAliveIntervals name st.nextTimerId
        nextTimerId := st.nextTimerId + 1
        lastActivity := mapSet st.lastActivity name now }

/-- logout(name) (services/baileys.ts, lines 720 to 737). A missing
instance makes the trailing non-null assertion fail; a socket whose
logout call throws rethrows before the status lines run. On success,
status becomes disconnected and identity and pairing fields are cleared.
The socket handle itself is not cleared by the source. -/
def logoutOp (st : ServiceState) (name : String) (socketLogoutOk : Bool) :
    Except String ServiceState :=
  match mapGet st.instances name with
  | none => Except.error "TypeError: instance is undefined"
  | some inst =>
    if inst.socket.isSome && !socketLogoutOk then
      Except.error "Error logging out"
    else
      let inst2 := { inst with status := InstanceStatus.disconnected,
                               qrCode := none,
                               phoneNumber := none,
                               profileName := none }
      Except.ok { st with instances := mapSet st.instances name inst2 }

/-- deleteInstance(name) (services/baileys.ts, lines 699 to 718): end the
socket (errors swallowed), remove the name from the instances map and
erase the session directory. The source removes nothing from the
reconnectAttempts, keepAliveIntervals, lastActivity or
lastMessageReceived maps and does not clear the keep-alive timer. -/
def deleteInstance (st : ServiceState) (name : String) : ServiceState :=
  { st with instances := mapDelete st.instances name }

/-- getInstance(name) (services/baileys.ts, lines 584 to 586). -/
def getInstance (st : ServiceState) (name : String) : Option Instance :=
  mapGet st.instances name

/-- getInstanceInfo(name) (services/baileys.ts, lines 588 to 602); the
qrCode field goes through the or-undefined coercion. -/
def getInstanceInfo (st : ServiceState) (name : String) :
    Option InstanceInfo :=
  match mapGet st.instances name with
  | none => none
  | some inst =>
    some { name := name
           status := inst.status
           phoneNumber := inst.phoneNumber
           profileName := inst.profileName
           profilePicUrl := inst.profilePicUrl
           qrCode := jsTruthy inst.qrCode
           createdAt := inst.createdAt
           lastConnected := inst.lastConnected }

/-- setWebhookUrl (services/baileys.ts, lines 739 to 742). -/
def setWebhookUrl (st : ServiceState) (url : String) : ServiceState :=
  { st with webhookUrl := some url }

/-- getWebhookUrl (services/baileys.ts, lines 744 to 746). -/
def getWebhookUrl (st : ServiceState) : Option String :=
  st.webhookUrl

/-- Sweep interval of the zombie checker, 15 minutes
(services/baileys.ts, line 95). -/
def ZOMBIE_CHECK_INTERVAL : Nat := 15 * 60 * 1000

/-- Inactivity threshold of the zombie checker, 60 minutes
(services/baileys.ts, line 96). -/
def ZOMBIE_THRESHOLD : Nat := 60 * 60 * 1000

/-- What one zombie-checker pass does to one instance. -/
inductive ZombieAction where
  | forceReconnect
  | logZombieWarning
  | noAction
deriving DecidableEq, Repr

/-- Decision body of the zombie checker for one instance
(services/baileys.ts, startZombieChecker, lines 100 to 135): instances
not in connected status return immediately; a connected instance with no
recorded inbound message at all and a lastConnected older than the
threshold is force-reconnected; a connected instance with a recorded
inbound message older than the threshold only gets a logged warning. -/
def zombieCheckInstance (now : Nat) (inst : Instance)
    (lastReceived : Option Nat) : ZombieAction :=
  if inst.status ≠ InstanceStatus.connected then ZombieAction.noAction
  else
    match lastReceived, inst.lastConnected with
    | none, some lastConnectedAt =>
      if now - lastConnectedAt > ZOMBIE_THRESHOLD then
        ZombieAction.forceReconnect
      else ZombieAction.noAction
    | some lastReceivedAt, _ =>
      if now - lastReceivedAt > ZOMBIE_THRESHOLD then
        ZombieAction.logZombieWarning
      else ZombieAction.noAction
    | none, none => ZombieAction.noAction

/-- Names that one sweep cycle decides to force-reconnect; every decision
reads the pre-sweep state, as each forEach callback does before its first
await. -/
def zombieSweepForced (st : ServiceState) (now : Nat) : List String :=
  (st.instances.filter (fun p =>
    decide (zombieCheckInstance now p.2 (mapGet st.lastMessageReceived p.1) =
      ZombieAction.forceReconnect))).map Prod.fst

/-- One full sweep cycle of the zombie checker: compute the decisions,
then run the same connect path used for manual reconnects (wrapped in
try/catch) on every flagged name. Returns the new state and the flagged
names. -/
def zombieSweep (st : ServiceState) (now : Nat) :
    ServiceState × List String :=
  let forced := zombieSweepForced st now
  (forced.foldl connectTry st, forced)

/-- Attachment descriptor inside a message (the Baileys
IImageMessage/IAudioMessage/... objects); only the declared media type
matters to this model. -/
structure MediaDescriptor where
  mimetype : Option String
deriving DecidableEq, Repr

/-- The attachment slots of an inbound message body (proto.IMessage). -/
structure MsgContent where
  imageMessage : Option MediaDescriptor := none
  audioMessage : Option MediaDescriptor := none
  videoMessage : Option MediaDescriptor := none
  documentMessage : Option MediaDescriptor := none
  stickerMessage : Option MediaDescriptor := none
deriving DecidableEq, Repr

/-- The Baileys MediaType values handled by the service. -/
inductive MediaType where
  | image
  | audio
  | video
  | document
  | sticker
deriving DecidableEq, Repr

/-- One inbound message as seen by the messages.upsert handler. -/
structure WAMessage where
  remoteJid : String
  fromMe : Bool := false
  content : Option MsgContent := none
  pushName : Option String := none
deriving DecidableEq, Repr

/-- downloadMediaAsBase64 (services/baileys.ts, lines 820 to 869): pick
the descriptor for the requested type, returning none when it is absent;
stream and buffer the payload through the download oracle, whose none
result stands for a thrown download or buffering error caught by the
surrounding try/catch; on success pair the encoded payload with the
declared mimetype, falling back to application/octet-stream. -/
def downloadMediaAsBase64 (download : MediaDescriptor → Option String)
    (message : MsgContent) (mediaType : MediaType) :
    Option (String × String) :=
  let mediaMessage : Option MediaDescriptor :=
    match mediaType with
    | MediaType.image => message.imageMessage
    | MediaType.audio => message.audioMessage
    | MediaType.video => message.videoMessage
    | MediaType.document => message.documentMessage
    | MediaType.sticker => message.stickerMessage
  match mediaMessage with
  | none => none
  | some d =>
    match download d with
    | none => none
    | some base64 =>
      some (base64, (jsTruthy d.mimetype).getD "application/octet-stream")

/-- The if/else-if chain of the messages.upsert handler that picks which
attachment to download (services/baileys.ts, lines 324 to 359). -/
def detectMediaType (m : MsgContent) : Option MediaType :=
  if m.imageMessage.isSome then some MediaType.image
  else if m.audioMessage.isSome then some MediaType.audio
  else if m.videoMessage.isSome then some MediaType.video
  else if m.documentMessage.isSome then some MediaType.document
  else if m.stickerMessage.isSome then some MediaType.sticker
  else none

/-- Payload of one messages.upsert webhook POST produced by the handler. -/
structure UpsertWebhookData where
  instanceName : String
  remoteJid : String
  pushName : Option String
  resolvedPhoneNumber : Option String
  mediaBase64 : Option String
  mediaMimetype : Option String
deriving DecidableEq, Repr

/-- Body of the per-message loop of the messages.upsert handler
(services/baileys.ts, lines 307 to 430): skip status broadcasts, attempt
media extraction for the first attachment slot present, then emit exactly
one webhook payload, through the LID branch (with best-effort phone
number resolution) when the chat id contains the lid marker. -/
def processMessage (download : MediaDescriptor → Option String)
    (resolveLid : String → Option String) (name : String)
    (msg : WAMessage) : Option UpsertWebhookData :=
  if msg.remoteJid = "status@broadcast" then none
  else
    let media : Option (String × String) :=
      match msg.content with
      | none => none
      | some content =>
        match detectMediaType content with
        | none => none
        | some t => downloadMediaAsBase64 download content t
    let mediaBase64 := media.map Prod.fst
    let mediaMimetype := media.map Prod.snd
    if strIncludes msg.remoteJid "@lid" then
      some { instanceName := name
             remoteJid := msg.remoteJid
             pushName := msg.pushName
             resolvedPhoneNumber := resolveLid msg.remoteJid
             mediaBase64 := mediaBase64
             mediaMimetype := mediaMimetype }
    else
      some { instanceName := name
             remoteJid := msg.remoteJid
             pushName := msg.pushName
             resolvedPhoneNumber := none
             mediaBase64 := mediaBase64
             mediaMimetype := mediaMimetype }

/-- messages.upsert handler (services/baileys.ts, lines 289 to 431):
batches whose type is neither notify nor append are ignored; otherwise
the last-message-received timestamp for the instance is stamped before
the loop, last activity is stamped while processing messages, and every
non-broadcast message yields one webhook payload. -/
def handleMessagesUpsert (st : ServiceState) (name ty : String)
    (msgs : List WAMessage) (now : Nat)
    (download : MediaDescriptor → Option String)
    (resolveLid : String → Option String) :
    ServiceState × List UpsertWebhookData :=
  if ty ≠ "notify" ∧ ty ≠ "append" then (st, [])
  else
    let st1 := { st with
      lastMessageReceived := mapSet st.lastMessageReceived name now }
    let st2 :=
      if msgs.any (fun m => m.remoteJid != "status@broadcast") then
        { st1 with lastActivity := mapSet st1.lastActivity name now }
      else st1
    (st2, msgs.filterMap (processMessage download resolveLid name))

/-- formatJid (services/baileys.ts, lines 800 to 815). -/
def formatJid (phone : String) : String :=
  if phone.contains (Char.ofNat 64) then phone
  else
    let cleaned := String.mk (phone.toList.filter Char.isDigit)
    let cleaned :=
      if ¬ cleaned.startsWith "55" ∧ cleaned.length ≤ 11 then
        "55" ++ cleaned
      else cleaned
    cleaned ++ "@s.whatsapp.net"

/-- What a successful sendText hands to the session socket. -/
structure SendTextResult where
  socketId : Nat
  jid : String
  text : String
deriving DecidableEq, Repr

/-- sendText (services/baileys.ts, lines 492 to 506): reject with the
descriptive error when the instance is missing or has no socket, or when
its status is not connected; only then format the target and hand the
message to the socket. The service state is returned unchanged in every
branch because the source mutates nothing here. -/
def sendText (st : ServiceState) (instanceName target text : String) :
    Except String SendTextResult × ServiceState :=
  match mapGet st.instances instanceName with
  | none => (Except.error "Instance not connected", st)
  | some inst =>
    match inst.socket with
    | none => (Except.error "Instance not connected", st)
    | some sock =>
      if inst.status = InstanceStatus.connected then
        (Except.ok { socketId := sock, jid := formatJid target,
                     text := text },
         st)
      else (Except.error "Instance not connected", st)

/-- Media kinds accepted by sendMedia. -/
inductive SendMediaKind where
  | image
  | video
  | audio
  | document
deriving DecidableEq, Repr

/-- The message content sendMedia builds for the socket. -/
structure OutMediaContent where
  kind : SendMediaKind
  buffer : List Nat
  caption : Option String := none
  mimetype : Option String := none
  ptt : Option Bool := none
  fileName : Option String := none
deriving DecidableEq, Repr

/-- The switch of sendMedia that builds the outgoing message content
(services/baileys.ts, lines 531 to 560). -/
def mkMediaContent (kind : SendMediaKind) (buffer : List Nat)
    (caption : Option String) (contentType : String)
    (fileName : Option String) : OutMediaContent :=
  match kind with
  | SendMediaKind.image =>
    { kind := kind, buffer := buffer, caption := jsTruthy caption }
  | SendMediaKind.video =>
    { kind := kind, buffer := buffer, caption := jsTruthy caption }
  | SendMediaKind.audio =>
    { kind := kind, buffer := buffer
      mimetype := some (if strIncludes contentType "audio" then contentType
                        else "audio/mp4")
      ptt := some (strIncludes contentType "ogg") }
  | SendMediaKind.document =>
    { kind := kind, buffer := buffer
      mimetype := some contentType
      fileName := some ((jsTruthy fileName).getD "document") }

/-- What a successful sendMedia hands to the session socket. -/
structure SendMediaResult where
  socketId : Nat
  jid : String
  content : OutMediaContent
deriving DecidableEq, Repr

/-- sendMedia (services/baileys.ts, lines 508 to 566): the same two
readiness checks as sendText run before anything else; only then the
media URL is fetched (the oracle returning the buffered bytes and the
content-type header, or none for a transport failure or a non-ok
response) and the message content is built and handed to the socket. -/
def sendMedia (st : ServiceState) (instanceName target mediaUrl : String)
    (caption : Option String) (mediaType : SendMediaKind)
    (fileName : Option String)
    (fetchResult : Option (List Nat × Option String)) :
    Except String SendMediaResult × ServiceState :=
  match mapGet st.instances instanceName with
  | none => (Except.error "Instance not connected", st)
  | some inst =>
    match inst.socket with
    | none => (Except.error "Instance not connected", st)
    | some sock =>
      if inst.status = InstanceStatus.connected then
        let jid := formatJid target
        match fetchResult with
        | none => (Except.error "Failed to download media", st)
        | some (buffer, ctHeader) =>
          let contentType :=
            (jsTruthy ctHeader).getD "application/octet-stream"
          (Except.ok { socketId := sock, jid := jid
                       content := mkMediaContent mediaType buffer caption
                         contentType fileName },
           st)
      else (Except.error "Instance not connected", st)

/-- Retry budget of the webhook dispatcher (services/baileys.ts,
line 910): up to 3 additional attempts after the first. -/
def maxRetries : Nat := 3

/-- Base retry delay of the webhook dispatcher in milliseconds
(services/baileys.ts, line 911). -/
def webhookBaseDelay : Nat := 1000

/-- Terminal outcome of one webhook delivery. -/
inductive WebhookOutcome where
  | skipped
  | delivered
  | dropped
deriving DecidableEq, Repr

/-- Observable result of one webhook delivery: how many POSTs went out,
the waits between consecutive attempts, and the terminal outcome. -/
structure WebhookResult where
  posts : Nat
  delays : List Nat
  outcome : WebhookOutcome
deriving DecidableEq, Repr

/-- Recursive retry loop of sendWebhook (services/baileys.ts, lines 904
to 946) starting from a given retryCount. The oracle says whether the
n-th POST overall succeeds (both a transport failure and a non-ok HTTP
status throw into the catch block). On failure with retryCount below
maxRetries, wait baseDelay * 2 ^ retryCount and recurse with retryCount
plus one; otherwise log the terminal failure and stop. -/
def sendWebhookFrom (ok : Nat → Bool) (retryCount : Nat) : WebhookResult :=
  if ok retryCount then
    { posts := 1, delays := [], outcome := WebhookOutcome.delivered }
  else if h : retryCount < maxRetries then
    let rest := sendWebhookFrom ok (retryCount + 1)
    { posts := rest.posts + 1
      delays := (webhookBaseDelay * 2 ^ retryCount) :: rest.delays
      outcome := rest.outcome }
  else
    { posts := 1, delays := [], outcome := WebhookOutcome.dropped }
termination_by maxRetries - retryCount
decreasing_by simp only [maxRetries] at *; omega

/-- sendWebhook entry point: a missing webhook URL makes the call a
logged no-op with no POST at all. -/
def sendWebhook (st : ServiceState) (ok : Nat → Bool) : WebhookResult :=
  match st.webhookUrl with
  | none => { posts := 0, delays := [], outcome := WebhookOutcome.skipped }
  | some _ => sendWebhookFrom ok 0

/-- One state transition of the service: an operation of the command
surface or a session socket event. -/
inductive Step : ServiceState → ServiceState → Prop where
  | createStep (st : ServiceState) (name : String) (now : Nat) :
      Step st (createInstance st name now).1
  | connectStep (st : ServiceState) (name : String) :
      Step st (connectTry st name)
  | qrStep (st : ServiceState) (name rendered : String) :
      Step st (handleQr st name rendered)
  | closeStep (st : ServiceState) (name : String) (reason : Option Nat) :
      Step st (handleClose st name reason).1
  | openStep (st : ServiceState) (name : String) (now : Nat)
      (userId userName : Option String) :
      Step st (handleOpen st name now userId userName)
  | logoutStep (st : ServiceState) (name : String) (ok : Bool)
      (st2 : ServiceState) (h : logoutOp st name ok = Except.ok st2) :
      Step st st2
  | deleteStep (st : ServiceState) (name : String) :
      Step st (deleteInstance st name)
  | upsertStep (st : ServiceState) (name ty : String)
      (msgs : List WAMessage) (now : Nat)
      (download : MediaDescriptor → Option String)
      (resolveLid : String → Option String) :
      Step st (handleMessagesUpsert st name ty msgs now download resolveLid).1
  | zombieStep (st : ServiceState) (now : Nat) :
      Step st (zombieSweep st now).1
  | setWebhookStep (st : ServiceState) (url : String) :
      Step st (setWebhookUrl st url)

/-- States the service can actually be in: everything obtainable from a
fresh service by operations and socket events. -/
inductive Reachable : ServiceState → Prop where
  | init (url : Option String) : Reachable (initState url)
  | step {st st2 : ServiceState} :
      Reachable st → Step st st2 → Reachable st2

/-- Download oracle that always fails (a thrown stream error). -/
def noDownload : MediaDescriptor → Option String := fun _ => none

/-- LID resolution oracle that never resolves. -/
def noResolve : String → Option String := fun _ => none

/-- Scenario: service created with no webhook URL. -/
def sc0 : ServiceState := initState none

/-- Scenario: instance a created at time 0 (status connecting,
socket 0). -/
def sc1 : ServiceState := (createInstance sc0 "a" 0).1

/-- Scenario: connection of a opens at time 10. -/
def sc2 : ServiceState :=
  handleOpen sc1 "a" 10 (some "5511999000111:1@s.whatsapp.net") (some "Ana")

/-- The registered record of a in scenario state sc2. -/
def sc2inst : Instance :=
  (mapGet sc2.instances "a").getD
    { socket := none, qrCode := none,
      status := InstanceStatus.disconnected, createdAt := 0 }

/-- Scenario: an inbound notify batch arrives at time 20 (this stamps the
last-message-received record even for an empty batch). -/
def sc3 : ServiceState :=
  (handleMessagesUpsert sc2 "a" "notify" [] 20 noDownload noResolve).1

/-- Scenario: transient closure (stream error 428) at some later time. -/
def sc4 : ServiceState := (handleClose sc3 "a" (some 428)).1

/-- Scenario: the scheduled reconnect timer fires. -/
def sc5 : ServiceState := connectTry sc4 "a"

/-- Scenario: the reconnection opens at time 30. -/
def sc6 : ServiceState := handleOpen sc5 "a" 30 none none

/-- A sweep instant more than the zombie threshold after the last
successful connection of sc6. -/
def sweepNow : Nat := 30 + ZOMBIE_THRESHOLD + 1

/-- Scenario: instance a deleted right after sc3. -/
def scDel : ServiceState := deleteInstance sc3 "a"

/-- Scenario: a QR code is issued for the freshly created instance. -/
def scQ1 : ServiceState := handleQr sc1 "a" "QRDATA"

/-- The registered record of a in scenario state scQ1. -/
def scQ1inst : Instance :=
  (mapGet scQ1.instances "a").getD
    { socket := none, qrCode := none,
      status := InstanceStatus.disconnected, createdAt := 0 }

/-- Scenario: the pairing socket suffers a transient closure while the QR
code is still displayed. -/
def scQ2 : ServiceState := (handleClose scQ1 "a" (some 428)).1

/-- Scenario: logout of the connected instance a succeeds. -/
def scL : ServiceState := (logoutOp sc2 "a" true).toOption.getD sc2

/-- The registered record of a in scenario state sc1. -/
def sc1inst : Instance :=
  (mapGet sc1.instances "a").getD
    { socket := none, qrCode := none,
      status := InstanceStatus.disconnected, createdAt := 0 }

/-- A concrete inbound image message whose download will fail. -/
def witnessMsg : WAMessage :=
  { remoteJid := "5511333222111@s.whatsapp.net"
    content := some { imageMessage := some { mimetype := some "image/jpeg" } } }

/-- QR field discipline of one instance record: a stored pairing code
implies the status is qr_code or connecting. -/
def QrStatusOk (inst : Instance) : Prop :=
  inst.qrCode ≠ none →
    inst.status = InstanceStatus.qr_code ∨
    inst.status = InstanceStatus.connecting

/-- QR field discipline over a whole registry. -/
def QrInvL (m : List (String × Instance)) : Prop :=
  ∀ name inst, mapGet m name = some inst → QrStatusOk inst

/-- Socket possession over a whole registry: every registered record
keeps a socket handle (the initial record without one is replaced by the
connect that createInstance performs before returning). -/
def SockInvL (m : List (String × Instance)) : Prop :=
  ∀ name inst, mapGet m name = some inst → inst.socket ≠ none

/-!
Theorems. First the association-list toolbox, then the reachability
invariants, then one theorem (with witness or counterexample as needed)
per specification claim.
-/

theorem mapGet_mapSet_self {α : Type} (m : List (String × α)) (k : String)
    (v : α) : mapGet (mapSet m k v) k = some v := by
  induction m with
  | nil => simp [mapGet, mapSet]
  | cons p rest ih =>
    obtain ⟨k2, v2⟩ := p
    by_cases h : k2 = k
    · subst h; simp [mapGet, mapSet]
    · simp [mapGet, mapSet, h, ih]

theorem mapGet_mapSet_ne {α : Type} (m : List (String × α)) (k k2 : String)
    (v : α) (h : k2 ≠ k) : mapGet (mapSet m k v) k2 = mapGet m k2 := by
  induction m with
  | nil =>
    simp [mapGet, mapSet, Ne.symm h]
  | cons p rest ih =>
    obtain ⟨k3, v3⟩ := p
    by_cases h3 : k3 = k
    · subst h3
      simp [mapGet, mapSet, Ne.symm h]
    · simp [mapGet, mapSet, h3, ih]

theorem mapSet_mapSet_same {α : Type} (m : List (String × α)) (k : String)
    (a b : α) : mapSet (mapSet m k a) k b = mapSet m k b := by
  induction m with
  | nil => simp [mapSet]
  | cons p rest ih =>
    obtain ⟨k2, v2⟩ := p
    by_cases h : k2 = k
    · subst h; simp [mapSet]
    · simp [mapSet, h, ih]

theorem mapGet_mapDelete_self {α : Type} (m : List (String × α))
    (k : String) : mapGet (mapDelete m k) k = none := by
  induction m with
  | nil => simp [mapGet, mapDelete]
  | cons p rest ih =>
    obtain ⟨k2, v2⟩ := p
    by_cases h : k2 = k
    · subst h; simpa [mapGet, mapDelete] using ih
    · simpa [mapGet, mapDelete, h] using ih

theorem mapGet_mapDelete_ne {α : Type} (m : List (String × α))
    (k k2 : String) (h : k2 ≠ k) :
    mapGet (mapDelete m k) k2 = mapGet m k2 := by
  induction m with
  | nil => simp [mapGet, mapDelete]
  | cons p rest ih =>
    obtain ⟨k3, v3⟩ := p
    by_cases h3 : k3 = k
    · subst h3
      simpa [mapGet, mapDelete, Ne.symm h] using ih
    · by_cases h4 : k3 = k2
      · subst h4; simp [mapGet, mapDelete, h3]
      · simpa [mapGet, mapDelete, h3, h4] using ih

theorem qrInvL_mapSet {m : List (String × Instance)} {name : String}
    {inst : Instance} (h : QrInvL m) (hi : QrStatusOk inst) :
    QrInvL (mapSet m name inst) := by
  intro n i hf
  rcases eq_or_ne n name with rfl | hne
  · rw [mapGet_mapSet_self] at hf
    injection hf with hh
    subst hh
    exact hi
  · rw [mapGet_mapSet_ne _ _ _ _ hne] at hf
    exact h n i hf

theorem qrInvL_mapDelete {m : List (String × Instance)} (h : QrInvL m)
    (name : String) : QrInvL (mapDelete m name) := by
  intro n i hf
  rcases eq_or_ne n name with rfl | hne
  · rw [mapGet_mapDelete_self] at hf
    simp at hf
  · rw [mapGet_mapDelete_ne _ _ _ hne] at hf
    exact h n i hf

theorem qrInvL_connectTry {st : ServiceState} (h : QrInvL st.instances)
    (name : String) : QrInvL (connectTry st name).instances := by
  unfold connectTry connectService
  cases hm : mapGet st.instances name with
  | none => exact h
  | some inst =>
    dsimp only
    exact qrInvL_mapSet h (fun _ => Or.inr rfl)

theorem qrInvL_foldl (l : List String) (st : ServiceState)
    (h : QrInvL st.instances) :
    QrInvL (l.foldl connectTry st).instances := by
  induction l generalizing st with
  | nil => exact h
  | cons x xs ih => exact ih _ (qrInvL_connectTry h x)

theorem handleMessagesUpsert_instances (st : ServiceState) (name ty : String)
    (msgs : List WAMessage) (now : Nat)
    (download : MediaDescriptor → Option String)
    (resolveLid : String → Option String) :
    (handleMessagesUpsert st name ty msgs now download resolveLid).1.instances
      = st.instances := by
  unfold handleMessagesUpsert
  by_cases hty : ty ≠ "notify" ∧ ty ≠ "append"
  · simp [hty]
  · simp only [if_neg hty]
    by_cases hmsg : msgs.any (fun m => m.remoteJid != "status@broadcast") = true
    · simp [hmsg]
    · simp [hmsg]

theorem qrInvL_step {st st2 : ServiceState} (hs : Step st st2)
    (h : QrInvL st.instances) : QrInvL st2.instances := by
  cases hs with
  | createStep name now =>
    unfold createInstance
    cases hm : mapGet st.instances name with
    | some inst => simp only [hm]; exact h
    | none =>
      simp only [hm]
      exact qrInvL_connectTry (qrInvL_mapSet h (fun hc => absurd rfl hc)) name
  | connectStep name => exact qrInvL_connectTry h name
  | qrStep name rendered =>
    unfold handleQr
    cases hm : mapGet st.instances name with
    | none => simp only [hm]; exact h
    | some inst =>
      simp only [hm]
      exact qrInvL_mapSet h (fun _ => Or.inl rfl)
  | closeStep name reason =>
    unfold handleClose
    cases hm : mapGet st.instances name with
    | none => simp only [hm]; exact h
    | some inst =>
      by_cases hr : reason = some DisconnectReason.loggedOut
      · simp only [hm, if_pos hr]
        exact qrInvL_mapSet h (fun hc => absurd rfl hc)
      · simp only [hm, if_neg hr]
        exact qrInvL_mapSet h (fun _ => Or.inr rfl)
  | openStep name now uid un =>
    unfold handleOpen
    cases hm : mapGet st.instances name with
    | none => simp only [hm]; exact h
    | some inst =>
      simp only [hm]
      exact qrInvL_mapSet h (fun hc => absurd rfl hc)
  | logoutStep name ok st3 hlog =>
    unfold logoutOp at hlog
    cases hm : mapGet st.instances name with
    | none => rw [hm] at hlog; exact absurd hlog (by simp)
    | some inst =>
      simp only [hm] at hlog
      by_cases hsk : (inst.socket.isSome && !ok) = true
      · rw [if_pos hsk] at hlog
        exact absurd hlog (by simp)
      · rw [if_neg hsk] at hlog
        injection hlog with hh
        subst hh
        exact qrInvL_mapSet h (fun hc => absurd rfl hc)
  | deleteStep name => exact qrInvL_mapDelete h name
  | upsertStep name ty msgs now download resolveLid =>
    rw [handleMessagesUpsert_instances]
    exact h
  | zombieStep now => exact qrInvL_foldl (zombieSweepForced st now) st h
  | setWebhookStep url => exact h

theorem qrInvL_reachable (st : ServiceState) (h : Reachable st) :
    QrInvL st.instances := by
  induction h with
  | init url => intro n i hf; simp [initState, mapGet] at hf
  | step hr hs ih => exact qrInvL_step hs ih

theorem sockInvL_mapSet {m : List (String × Instance)} {name : String}
    {inst : Instance} (h : SockInvL m) (hi : inst.socket ≠ none) :
    SockInvL (mapSet m name inst) := by
  intro n i hf
  rcases eq_or_ne n name with rfl | hne
  · rw [mapGet_mapSet_self] at hf
    injection hf with hh
    subst hh
    exact hi
  · rw [mapGet_mapSet_ne _ _ _ _ hne] at hf
    exact h n i hf

theorem sockInvL_mapDelete {m : List (String × Instance)} (h : SockInvL m)
    (name : String) : SockInvL (mapDelete m name) := by
  intro n i hf
  rcases eq_or_ne n name with rfl | hne
  · rw [mapGet_mapDelete_self] at hf
    simp at hf
  · rw [mapGet_mapDelete_ne _ _ _ hne] at hf
    exact h n i hf

theorem sockInvL_connectTry {st : ServiceState} (h : SockInvL st.instances)
    (name : String) : SockInvL (connectTry st name).instances := by
  unfold connectTry connectService
  cases hm : mapGet st.instances name with
  | none => exact h
  | some inst =>
    dsimp only
    exact sockInvL_mapSet h (by simp)

theorem sockInvL_foldl (l : List String) (st : ServiceState)
    (h : SockInvL st.instances) :
    SockInvL (l.foldl connectTry st).instances := by
  induction l generalizing st with
  | nil => exact h
  | cons x xs ih => exact ih _ (sockInvL_connectTry h x)

theorem sockInvL_step {st st2 : ServiceState} (hs : Step st st2)
    (h : SockInvL st.instances) : SockInvL st2.instances := by
  cases hs with
  | createStep name now =>
    unfold createInstance
    cases hm : mapGet st.instances name with
    | some inst => simp only [hm]; exact h
    | none =>
      simp only [hm]
      unfold connectTry connectService
      rw [mapGet_mapSet_self]
      dsimp only
      rw [mapSet_mapSet_same]
      exact sockInvL_mapSet h (by simp)
  | connectStep name => exact sockInvL_connectTry h name
  | qrStep name rendered =>
    unfold handleQr
    cases hm : mapGet st.instances name with
    | none => simp only [hm]; exact h
    | some inst =>
      simp only [hm]
      exact sockInvL_mapSet h (h name inst hm)
  | closeStep name reason =>
    unfold handleClose
    cases hm : mapGet st.instances name with
    | none => simp only [hm]; exact h
    | some inst =>
      by_cases hr : reason = some DisconnectReason.loggedOut
      · simp only [hm, if_pos hr]
        exact sockInvL_mapSet h (h name inst hm)
      · simp only [hm, if_neg hr]
        exact sockInvL_mapSet h (h name inst hm)
  | openStep name now uid un =>
    unfold handleOpen
    cases hm : mapGet st.instances name with
    | none => simp only [hm]; exact h
    | some inst =>
      simp only [hm]
      exact sockInvL_mapSet h (h name inst hm)
  | logoutStep name ok st3 hlog =>
    unfold logoutOp at hlog
    cases hm : mapGet st.instances name with
    | none => rw [hm] at hlog; exact absurd hlog (by simp)
    | some inst =>
      simp only [hm] at hlog
      by_cases hsk : (inst.socket.isSome && !ok) = true
      · rw [if_pos hsk] at hlog
        exact absurd hlog (by simp)
      · rw [if_neg hsk] at hlog
        injection hlog with hh
        subst hh
        exact sockInvL_mapSet h (h name inst hm)
  | deleteStep name => exact sockInvL_mapDelete h name
  | upsertStep name ty msgs now download resolveLid =>
    rw [handleMessagesUpsert_instances]
    exact h
  | zombieStep now => exact sockInvL_foldl (zombieSweepForced st now) st h
  | setWebhookStep url => exact h

theorem sockInvL_reachable (st : ServiceState) (h : Reachable st) :
    SockInvL st.instances := by
  induction h with
  | init url => intro n i hf; simp [initState, mapGet] at hf
  | step hr hs ih => exact sockInvL_step hs ih

theorem count_keys_filter_zero (rest : List (String × Instance))
    (p : String × Instance → Bool) (k : String)
    (hk : k ∉ rest.map Prod.fst) :
    ((rest.filter p).map Prod.fst).count k = 0 := by
  rw [List.count_eq_zero]
  intro hmem
  apply hk
  obtain ⟨q, hq, rfl⟩ := List.mem_map.mp hmem
  exact List.mem_map.mpr ⟨q, List.mem_of_mem_filter hq, rfl⟩

theorem count_keys_filter (m : List (String × Instance))
    (p : String × Instance → Bool) (name : String) (inst : Instance)
    (hnodup : (m.map Prod.fst).Nodup)
    (hf : mapGet m name = some inst) :
    ((m.filter p).map Prod.fst).count name =
      if p (name, inst) then 1 else 0 := by
  induction m with
  | nil => simp [mapGet] at hf
  | cons q rest ih =>
    obtain ⟨k, v⟩ := q
    simp only [List.map_cons, List.nodup_cons] at hnodup
    obtain ⟨hk, hrest⟩ := hnodup
    by_cases hkn : k = name
    · subst hkn
      rw [mapGet] at hf
      simp only [if_pos rfl] at hf
      injection hf with hv
      subst hv
      by_cases hp : p (k, v) = true
      · simp [List.filter_cons, hp, List.count_cons,
          count_keys_filter_zero rest p k hk]
      · simp [List.filter_cons, hp,
          count_keys_filter_zero rest p k hk]
    · rw [mapGet] at hf
      simp only [if_neg hkn] at hf
      have hrec := ih hrest hf
      have hbk : (name == k) = false := by simp [Ne.symm hkn]
      by_cases hp : p (k, v) = true
      · simp [List.filter_cons, hp, List.count_cons, hbk, hrec, hkn]
      · simp [List.filter_cons, hp, hrec]

/-- C6 amended helper: the per-instance decision equals forceReconnect
exactly in the never-received-and-stale-connection case. -/
theorem zombieCheck_reconnect_iff (now : Nat) (inst : Instance)
    (lastReceived : Option Nat) :
    zombieCheckInstance now inst lastReceived = ZombieAction.forceReconnect ↔
      (inst.status = InstanceStatus.connected ∧ lastReceived = none ∧
        ∃ t, inst.lastConnected = some t ∧ now - t > ZOMBIE_THRESHOLD) := by
  unfold zombieCheckInstance
  by_cases hst : inst.status = InstanceStatus.connected
  · simp only [hst, ne_eq, not_true_eq_false, if_neg, ite_false]
    cases lastReceived with
    | some r =>
      by_cases hr : now - r > ZOMBIE_THRESHOLD
      · simp [hr]
      · simp [hr]
    | none =>
      cases hlc : inst.lastConnected with
      | none => simp
      | some t =>
        by_cases ht : now - t > ZOMBIE_THRESHOLD
        · simp [ht]
        · simp [ht]
  · simp [hst]

theorem sendWebhookFrom_success (ok : Nat → Bool) (n : Nat)
    (h : ok n = true) :
    sendWebhookFrom ok n =
      { posts := 1, delays := [], outcome := WebhookOutcome.delivered } := by
  rw [sendWebhookFrom.eq_def, h]
  simp

theorem sendWebhookFrom_fail_step (ok : Nat → Bool) (n : Nat)
    (hfail : ok n = false) (hn : n < maxRetries) :
    sendWebhookFrom ok n =
      { posts := (sendWebhookFrom ok (n + 1)).posts + 1
        delays :=
          (webhookBaseDelay * 2 ^ n) :: (sendWebhookFrom ok (n + 1)).delays
        outcome := (sendWebhookFrom ok (n + 1)).outcome } := by
  rw [sendWebhookFrom.eq_def, hfail]
  simp [hn]

theorem sendWebhookFrom_exhausted (ok : Nat → Bool)
    (hfail : ok maxRetries = false) :
    sendWebhookFrom ok maxRetries =
      { posts := 1, delays := [], outcome := WebhookOutcome.dropped } := by
  rw [sendWebhookFrom.eq_def, hfail]
  simp

/-- C1: on every transient closure (reason other than loggedOut) of a
registered instance, exactly one reconnection is scheduled, with delay
min(3000 * 2 ^ n, 60000) ms for n the current attempt counter (0 for a
fresh instance); the counter is incremented right after scheduling; an
open event resets the counter, so the first delay after a successful
connection equals the attempt-0 delay of a freshly created instance. -/
theorem C1_transient_close_backoff (st : ServiceState) (name : String)
    (reason : Option Nat) (inst : Instance)
    (hf : mapGet st.instances name = some inst)
    (htrans : reason ≠ some DisconnectReason.loggedOut) :
    (handleClose st name reason).2 =
      [(name, min (3000 * 2 ^ ((mapGet st.reconnectAttempts name).getD 0))
          60000)] ∧
    mapGet (handleClose st name reason).1.reconnectAttempts name =
      some ((mapGet st.reconnectAttempts name).getD 0 + 1) ∧
    (∀ (now : Nat) (uid un : Option String) (reason2 : Option Nat),
      reason2 ≠ some DisconnectReason.loggedOut →
      (handleClose (handleOpen st name now uid un) name reason2).2 =
        [(name, min (3000 * 2 ^ 0) 60000)]) ∧
    (∀ (url : Option String) (name2 : String) (now2 : Nat)
        (reason3 : Option Nat),
      reason3 ≠ some DisconnectReason.loggedOut →
      (handleClose (createInstance (initState url) name2 now2).1 name2
          reason3).2 =
        [(name2, min (3000 * 2 ^ 0) 60000)]) := by
  refine ⟨?_, ?_, ?_, ?_⟩
  · unfold handleClose
    simp only [hf, if_neg htrans]
  · unfold handleClose
    simp only [hf, if_neg htrans]
    exact mapGet_mapSet_self _ _ _
  · intro now uid un reason2 h2
    unfold handleOpen
    simp only [hf]
    unfold handleClose
    simp only [mapGet_mapSet_self, if_neg h2, Option.getD_some]
  · intro url name2 now2 reason3 h3
    unfold createInstance
    simp only [initState, mapGet]
    unfold connectTry connectService
    simp only [mapGet_mapSet_self]
    unfold handleClose
    simp only [mapGet_mapSet_self, if_neg h3]
    simp [mapGet]

/-- Witness for C1 at the connected scenario state sc2 and at a freshly
created instance. -/
theorem C1_transient_close_backoff_witness :
    (handleClose sc2 "a" (some 428)).2 = [("a", 3000)] ∧
    mapGet (handleClose sc2 "a" (some 428)).1.reconnectAttempts "a" =
      some 1 ∧
    (handleClose (handleOpen sc2 "a" 50 none none) "a" (some 428)).2 =
      [("a", 3000)] ∧
    (handleClose (createInstance (initState none) "b" 0).1 "b"
        (some 500)).2 = [("b", 3000)] := by
  obtain ⟨h1, h2, h3, h4⟩ :=
    C1_transient_close_backoff sc2 "a" (some 428) sc2inst rfl (by decide)
  refine ⟨?_, ?_, ?_, ?_⟩
  · rw [h1]; rfl
  · rw [h2]; rfl
  · rw [h3 50 none none (some 428) (by decide)]; rfl
  · rw [h4 none "b" 0 (some 500) (by decide)]; rfl

/-- C2: with a webhook endpoint configured, a delivery failing on every
attempt performs exactly 4 POSTs with waits of 1s, 2s, 4s between them
and ends as a dropped (logged terminal) failure with no fifth attempt,
while a delivery failing three times and succeeding on the fourth also
performs exactly 4 POSTs with the same waits and ends as delivered. -/
theorem C2_webhook_retry_bound (st : ServiceState) (url : String)
    (hurl : st.webhookUrl = some url) (okA okB : Nat → Bool)
    (hA : ∀ n, n ≤ maxRetries → okA n = false)
    (hB : ∀ n, n < maxRetries → okB n = false)
    (hB3 : okB maxRetries = true) :
    sendWebhook st okA =
      { posts := 4, delays := [1000, 2000, 4000],
        outcome := WebhookOutcome.dropped } ∧
    sendWebhook st okB =
      { posts := 4, delays := [1000, 2000, 4000],
        outcome := WebhookOutcome.delivered } := by
  have hlt : ∀ n, n < 3 → n < maxRetries := by
    intro n hn; simpa [maxRetries] using hn
  constructor
  · have e3 : sendWebhookFrom okA 3 =
        { posts := 1, delays := [], outcome := WebhookOutcome.dropped } := by
      have h := sendWebhookFrom_exhausted okA (hA maxRetries le_rfl)
      simpa [maxRetries] using h
    have e2 : sendWebhookFrom okA 2 =
        { posts := 2, delays := [4000],
          outcome := WebhookOutcome.dropped } := by
      rw [sendWebhookFrom_fail_step okA 2 (hA 2 (by simp [maxRetries]))
        (hlt 2 (by norm_num))]
      norm_num [e3, webhookBaseDelay]
    have e1 : sendWebhookFrom okA 1 =
        { posts := 3, delays := [2000, 4000],
          outcome := WebhookOutcome.dropped } := by
      rw [sendWebhookFrom_fail_step okA 1 (hA 1 (by simp [maxRetries]))
        (hlt 1 (by norm_num))]
      norm_num [e2, webhookBaseDelay]
    have e0 : sendWebhookFrom okA 0 =
        { posts := 4, delays := [1000, 2000, 4000],
          outcome := WebhookOutcome.dropped } := by
      rw [sendWebhookFrom_fail_step okA 0 (hA 0 (by simp [maxRetries]))
        (hlt 0 (by norm_num))]
      norm_num [e1, webhookBaseDelay]
    unfold sendWebhook
    rw [hurl]
    exact e0
  · have f3 : sendWebhookFrom okB 3 =
        { posts := 1, delays := [],
          outcome := WebhookOutcome.delivered } := by
      have h := sendWebhookFrom_success okB maxRetries hB3
      simpa [maxRetries] using h
    have f2 : sendWebhookFrom okB 2 =
        { posts := 2, delays := [4000],
          outcome := WebhookOutcome.delivered } := by
      rw [sendWebhookFrom_fail_step okB 2 (hB 2 (by simp [maxRetries]))
        (hlt 2 (by norm_num))]
      norm_num [f3, webhookBaseDelay]
    have f1 : sendWebhookFrom okB 1 =
        { posts := 3, delays := [2000, 4000],
          outcome := WebhookOutcome.delivered } := by
      rw [sendWebhookFrom_fail_step okB 1 (hB 1 (by simp [maxRetries]))
        (hlt 1 (by norm_num))]
      norm_num [f2, webhookBaseDelay]
    have f0 : sendWebhookFrom okB 0 =
        { posts := 4, delays := [1000, 2000, 4000],
          outcome := WebhookOutcome.delivered } := by
      rw [sendWebhookFrom_fail_step okB 0 (hB 0 (by simp [maxRetries]))
        (hlt 0 (by norm_num))]
      norm_num [f1, webhookBaseDelay]
    unfold sendWebhook
    rw [hurl]
    exact f0

/-- Witness for C2: an always-failing endpoint and an endpoint that
succeeds on the fourth POST, both on a configured service. -/
theorem C2_webhook_retry_bound_witness :
    sendWebhook (initState (some "https://example.test/hook"))
        (fun _ => false) =
      { posts := 4, delays := [1000, 2000, 4000],
        outcome := WebhookOutcome.dropped } ∧
    sendWebhook (initState (some "https://example.test/hook"))
        (fun n => n == 3) =
      { posts := 4, delays := [1000, 2000, 4000],
        outcome := WebhookOutcome.delivered } :=
  C2_webhook_retry_bound (initState (some "https://example.test/hook"))
    "https://example.test/hook" rfl (fun _ => false) (fun n => n == 3)
    (fun n _ => rfl)
    (fun n hn => by
      simp only [maxRetries] at hn
      simp only [beq_eq_false_iff_ne, ne_eq]
      omega)
    rfl

/-- C3 counterexample: a QR code is issued and then the pairing socket
closes transiently; the reachable resulting state keeps the stale QR
payload while the status is connecting, so qrCode is non-null in a state
whose status is not qr_code, and the transient-closure transition away
from qr_code did not clear it. -/
theorem C3_counterexample :
    Reachable scQ2 ∧
    (mapGet scQ2.instances "a").map Instance.qrCode =
      some (some "QRDATA") ∧
    (mapGet scQ2.instances "a").map Instance.status =
      some InstanceStatus.connecting := by
  refine ⟨?_, rfl, rfl⟩
  have h0 : Reachable sc0 := Reachable.init none
  have h1 : Reachable sc1 := h0.step (Step.createStep sc0 "a" 0)
  have hq1 : Reachable scQ1 := h1.step (Step.qrStep sc1 "a" "QRDATA")
  exact hq1.step (Step.closeStep scQ1 "a" (some 428))

/-- C3 amended: in every reachable state, a non-null qrCode implies the
status is qr_code or connecting; the open and loggedOut transitions clear
the pairing payload, but the transient-closure transition to connecting
does not. -/
theorem C3_qr_code_field_discipline (st : ServiceState)
    (h : Reachable st) (name : String) (inst : Instance)
    (hf : mapGet st.instances name = some inst)
    (hqr : inst.qrCode ≠ none) :
    inst.status = InstanceStatus.qr_code ∨
    inst.status = InstanceStatus.connecting :=
  qrInvL_reachable st h name inst hf hqr

/-- Witness for C3 amended at the reachable pairing state scQ1. -/
theorem C3_qr_code_field_discipline_witness :
    scQ1inst.status = InstanceStatus.qr_code ∨
    scQ1inst.status = InstanceStatus.connecting := by
  have h0 : Reachable sc0 := Reachable.init none
  have h1 : Reachable sc1 := h0.step (Step.createStep sc0 "a" 0)
  have hq1 : Reachable scQ1 := h1.step (Step.qrStep sc1 "a" "QRDATA")
  exact C3_qr_code_field_discipline scQ1 hq1 "a" scQ1inst rfl (by decide)

/-- C4 counterexample: after a successful logout of the connected
instance a, the reachable state has status disconnected while the old
socket handle is still stored, so disconnected does not imply a null
handle and logout does not re-establish that agreement. -/
theorem C4_counterexample :
    Reachable scL ∧
    (mapGet scL.instances "a").map Instance.status =
      some InstanceStatus.disconnected ∧
    (mapGet scL.instances "a").map Instance.socket = some (some 0) := by
  refine ⟨?_, rfl, rfl⟩
  have h0 : Reachable sc0 := Reachable.init none
  have h1 : Reachable sc1 := h0.step (Step.createStep sc0 "a" 0)
  have h2 : Reachable sc2 :=
    h1.step (Step.openStep sc1 "a" 10
      (some "5511999000111:1@s.whatsapp.net") (some "Ana"))
  exact h2.step (Step.logoutStep sc2 "a" true scL rfl)

/-- C4 amended: in every reachable state, status connected implies a
non-null socket handle (every registered record keeps a handle after the
connect that createInstance performs); logout and the loggedOut closure
leave the previous handle in place, so disconnected does not imply a
null handle. -/
theorem C4_connected_implies_socket (st : ServiceState)
    (h : Reachable st) (name : String) (inst : Instance)
    (hf : mapGet st.instances name = some inst)
    (hconn : inst.status = InstanceStatus.connected) :
    inst.socket ≠ none :=
  sockInvL_reachable st h name inst hf

/-- Witness for C4 amended at the reachable connected state sc2. -/
theorem C4_connected_implies_socket_witness : sc2inst.socket ≠ none := by
  have h0 : Reachable sc0 := Reachable.init none
  have h1 : Reachable sc1 := h0.step (Step.createStep sc0 "a" 0)
  have h2 : Reachable sc2 :=
    h1.step (Step.openStep sc1 "a" 10
      (some "5511999000111:1@s.whatsapp.net") (some "Ana"))
  exact C4_connected_implies_socket sc2 h2 "a" sc2inst rfl (by decide)

/-- C5: deleting the connected instance a (which had a keep-alive timer,
a reconnect counter, a last-activity stamp and a zombie-tracking entry)
makes subsequent lookups fail, but every one of those derived entries is
left behind in the service state, including the live keep-alive timer. -/
theorem C5_delete_leaves_residual_state :
    getInstance scDel "a" = none ∧
    getInstanceInfo scDel "a" = none ∧
    mapGet scDel.keepAliveIntervals "a" = some 0 ∧
    mapGet scDel.reconnectAttempts "a" = some 0 ∧
    mapGet scDel.lastActivity "a" = some 10 ∧
    mapGet scDel.lastMessageReceived "a" = some 20 :=
  ⟨rfl, rfl, rfl, rfl, rfl, rfl⟩

/-- C6 counterexample: sc6 is reachable, its instance a is connected
since time 30 with the sweep instant more than the threshold later, and
its only recorded inbound message (time 20) predates that last successful
connection, so no message arrived since the connection opened; yet the
sweep forces no reconnection for it, because the decision checks whether
any message was ever recorded, not whether one arrived since the last
connection. -/
theorem C6_counterexample :
    Reachable sc6 ∧
    (mapGet sc6.instances "a").map Instance.status =
      some InstanceStatus.connected ∧
    (mapGet sc6.instances "a").map Instance.lastConnected =
      some (some 30) ∧
    mapGet sc6.lastMessageReceived "a" = some 20 ∧
    sweepNow - 30 > ZOMBIE_THRESHOLD ∧
    zombieSweepForced sc6 sweepNow = [] ∧
    (zombieSweep sc6 sweepNow).1 = sc6 := by
  refine ⟨?_, rfl, rfl, rfl,
    by norm_num [sweepNow, ZOMBIE_THRESHOLD], rfl, rfl⟩
  have h0 : Reachable sc0 := Reachable.init none
  have h1 : Reachable sc1 := h0.step (Step.createStep sc0 "a" 0)
  have h2 : Reachable sc2 :=
    h1.step (Step.openStep sc1 "a" 10
      (some "5511999000111:1@s.whatsapp.net") (some "Ana"))
  have h3 : Reachable sc3 :=
    h2.step (Step.upsertStep sc2 "a" "notify" [] 20 noDownload noResolve)
  have h4 : Reachable sc4 := h3.step (Step.closeStep sc3 "a" (some 428))
  have h5 : Reachable sc5 := h4.step (Step.connectStep sc4 "a")
  exact h5.step (Step.openStep sc5 "a" 30 none none)

/-- C6 amended: in each sweep cycle over a registry with distinct names,
a connected instance with no recorded inbound message at all whose last
successful connection is older than the threshold is force-reconnected
exactly once through the same connect path used for manual reconnects;
an instance with any recorded inbound message is never force-reconnected
(at most a warning is logged); an instance not in connected status is
not touched at all. The recorded-message map is never cleared on
reconnection, so a message from before the last successful connection
still suppresses the forced reconnect. -/
theorem C6_zombie_sweep_policy (st : ServiceState) (now : Nat)
    (name : String) (inst : Instance)
    (hnodup : (st.instances.map Prod.fst).Nodup)
    (hf : mapGet st.instances name = some inst) :
    ((inst.status = InstanceStatus.connected ∧
      mapGet st.lastMessageReceived name = none ∧
      (∃ t, inst.lastConnected = some t ∧ now - t > ZOMBIE_THRESHOLD)) →
      (zombieSweepForced st now).count name = 1) ∧
    (mapGet st.lastMessageReceived name ≠ none →
      (zombieSweepForced st now).count name = 0) ∧
    (inst.status ≠ InstanceStatus.connected →
      (zombieSweepForced st now).count name = 0 ∧
      zombieCheckInstance now inst (mapGet st.lastMessageReceived name) =
        ZombieAction.noAction) ∧
    (zombieSweep st now).1 =
      (zombieSweepForced st now).foldl connectTry st := by
  have hcount := count_keys_filter st.instances
    (fun p => decide (zombieCheckInstance now p.2
      (mapGet st.lastMessageReceived p.1) = ZombieAction.forceReconnect))
    name inst hnodup hf
  refine ⟨?_, ?_, ?_, rfl⟩
  · intro hcond
    have hdec : zombieCheckInstance now inst
        (mapGet st.lastMessageReceived name) =
          ZombieAction.forceReconnect :=
      (zombieCheck_reconnect_iff now inst _).mpr hcond
    unfold zombieSweepForced
    rw [hcount]
    simp [hdec]
  · intro hrec
    have hdec : zombieCheckInstance now inst
        (mapGet st.lastMessageReceived name) ≠
          ZombieAction.forceReconnect := by
      intro hcontra
      obtain ⟨_, hnone, _⟩ :=
        (zombieCheck_reconnect_iff now inst _).mp hcontra
      exact hrec hnone
    unfold zombieSweepForced
    rw [hcount]
    simp [hdec]
  · intro hst
    have hdec : zombieCheckInstance now inst
        (mapGet st.lastMessageReceived name) = ZombieAction.noAction := by
      unfold zombieCheckInstance
      simp [hst]
    constructor
    · unfold zombieSweepForced
      rw [hcount]
      simp [hdec]
    · exact hdec

/-- Witness for C6 amended at the reachable state sc2 (connected at time
10, no message ever received) with a sweep more than the threshold
later: the sweep forces exactly one reconnect of a. -/
theorem C6_zombie_sweep_policy_witness :
    (zombieSweepForced sc2 (10 + ZOMBIE_THRESHOLD + 1)).count "a" = 1 := by
  have h := C6_zombie_sweep_policy sc2 (10 + ZOMBIE_THRESHOLD + 1) "a"
    sc2inst (by decide) rfl
  exact h.1 ⟨rfl, rfl, ⟨10, rfl, by norm_num [ZOMBIE_THRESHOLD]⟩⟩

/-- C7: sendText and sendMedia reject synchronously with the descriptive
error when the target instance is missing, has no socket, or is not in
connected status; the rejecting call hands nothing to the socket, runs no
retry (the result is immediately the error) and returns the service state
unchanged. -/
theorem C7_send_rejects_unready (st : ServiceState)
    (instanceName target text mediaUrl : String) (caption : Option String)
    (mediaType : SendMediaKind) (fileName : Option String)
    (fetchResult : Option (List Nat × Option String))
    (h : ∀ inst, mapGet st.instances instanceName = some inst →
      inst.socket = none ∨ inst.status ≠ InstanceStatus.connected) :
    sendText st instanceName target text =
      (Except.error "Instance not connected", st) ∧
    sendMedia st instanceName target mediaUrl caption mediaType fileName
        fetchResult =
      (Except.error "Instance not connected", st) := by
  constructor
  · unfold sendText
    cases hm : mapGet st.instances instanceName with
    | none => rfl
    | some inst =>
      rcases h inst hm with hs | hs
      · simp [hs]
      · cases hsock : inst.socket with
        | none => simp [hsock]
        | some sock => simp [hsock, hs]
  · unfold sendMedia
    cases hm : mapGet st.instances instanceName with
    | none => rfl
    | some inst =>
      rcases h inst hm with hs | hs
      · simp [hs]
      · cases hsock : inst.socket with
        | none => simp [hsock]
        | some sock => simp [hsock, hs]

/-- Witness for C7 at a service with no registered instance. -/
theorem C7_send_rejects_unready_witness :
    sendText (initState none) "ghost" "5511988887777" "hello" =
      (Except.error "Instance not connected", initState none) ∧
    sendMedia (initState none) "ghost" "5511988887777"
        "https://cdn.test/img.png" none SendMediaKind.image none none =
      (Except.error "Instance not connected", initState none) :=
  C7_send_rejects_unready (initState none) "ghost" "5511988887777"
    "hello" "https://cdn.test/img.png" none SendMediaKind.image none none
    (fun inst hm => by simp [initState, mapGet] at hm)

/-- C8: a pairing-code event followed immediately by a connection-opened
event on a registered instance leaves qrCode null and status connected. -/
theorem C8_qr_then_open_roundtrip (st : ServiceState)
    (name rendered : String) (now : Nat) (uid un : Option String)
    (inst : Instance) (hf : mapGet st.instances name = some inst) :
    (mapGet (handleOpen (handleQr st name rendered) name now uid
        un).instances name).map Instance.qrCode = some none ∧
    (mapGet (handleOpen (handleQr st name rendered) name now uid
        un).instances name).map Instance.status =
      some InstanceStatus.connected := by
  unfold handleQr
  simp only [hf]
  unfold handleOpen
  simp only [mapGet_mapSet_self]
  exact ⟨rfl, rfl⟩

/-- Witness for C8 at the freshly created scenario instance. -/
theorem C8_qr_then_open_roundtrip_witness :
    (mapGet (handleOpen (handleQr sc1 "a" "QR2") "a" 40 none
        none).instances "a").map Instance.qrCode = some none ∧
    (mapGet (handleOpen (handleQr sc1 "a" "QR2") "a" 40 none
        none).instances "a").map Instance.status =
      some InstanceStatus.connected :=
  C8_qr_then_open_roundtrip sc1 "a" "QR2" 40 none none sc1inst rfl

/-- C9: an inbound notify message that carries an attachment whose
extraction fails (missing descriptor, download error or buffering error)
is still forwarded: the handler emits exactly one webhook payload for it,
with the media fields unpopulated instead of the delivery being
aborted. -/
theorem C9_media_failure_nonfatal (st : ServiceState) (name : String)
    (msg : WAMessage) (now : Nat)
    (download : MediaDescriptor → Option String)
    (resolveLid : String → Option String) (content : MsgContent)
    (t : MediaType)
    (hjid : msg.remoteJid ≠ "status@broadcast")
    (hcontent : msg.content = some content)
    (hmedia : detectMediaType content = some t)
    (hfail : downloadMediaAsBase64 download content t = none) :
    ∃ payload,
      (handleMessagesUpsert st name "notify" [msg] now download
          resolveLid).2 = [payload] ∧
      payload.mediaBase64 = none ∧ payload.mediaMimetype = none := by
  unfold handleMessagesUpsert
  simp only [ne_eq, not_true_eq_false, false_and, if_false]
  unfold processMessage
  cases hl : strIncludes msg.remoteJid "@lid" with
  | true =>
    apply Exists.intro
      { instanceName := name
        remoteJid := msg.remoteJid
        pushName := msg.pushName
        resolvedPhoneNumber := resolveLid msg.remoteJid
        mediaBase64 := none
        mediaMimetype := none }
    refine ⟨?_, rfl, rfl⟩
    simp [hjid, hcontent, hmedia, hfail, hl]
  | false =>
    apply Exists.intro
      { instanceName := name
        remoteJid := msg.remoteJid
        pushName := msg.pushName
        resolvedPhoneNumber := none
        mediaBase64 := none
        mediaMimetype := none }
    refine ⟨?_, rfl, rfl⟩
    simp [hjid, hcontent, hmedia, hfail, hl]

/-- Witness for C9: a concrete image message whose download oracle always
fails still yields exactly one webhook payload without media fields. -/
theorem C9_media_failure_nonfatal_witness :
    ∃ payload,
      (handleMessagesUpsert sc2 "a" "notify" [witnessMsg] 20 noDownload
          noResolve).2 = [payload] ∧
      payload.mediaBase64 = none ∧ payload.mediaMimetype = none :=
  C9_media_failure_nonfatal sc2 "a" witnessMsg 20 noDownload noResolve
    { imageMessage := some { mimetype := some "image/jpeg" } }
    MediaType.image (by decide) rfl rfl rfl

/-- C10: createInstance on an already registered name returns the
existing record unchanged and the whole service state unchanged, so no
socket replacement, no status or createdAt reset, and no new connection
attempt happens. -/
theorem C10_createInstance_idempotent (st : ServiceState) (name : String)
    (now : Nat) (inst : Instance)
    (h : mapGet st.instances name = some inst) :
    createInstance st name now = (st, inst) := by
  unfold createInstance
  simp only [h]

/-- Witness for C10 at the connected scenario state sc2. -/
theorem C10_createInstance_idempotent_witness :
    createInstance sc2 "a" 99 = (sc2, sc2inst) :=
  C10_createInstance_idempotent sc2 "a" 99 sc2inst rfl

end Luna
